import Mathlib

/-!
Shallow embedding of `src/drivers/phy/dp83826_driver.c` (CycloneTCP DP83826
Ethernet PHY driver) and proofs of the specified properties.

Machine integers are modelled as `Nat` with an explicit `% 65536` wherever the
C code truncates to `uint16_t`.  Register reads are modelled by oracles: a
function from register address to returned value for the single-shot paths
(tick, event handler), and a stream of successive values for the reset
busy-wait loop in the initializer.  Collaborator invocations (`osSetEvent`,
`updateMacConfig`, `nicNotifyLinkChange`, the SMI/NIC register transports and
the external interrupt line driver) are recorded explicitly in the result of
each operation.
-/

/-- Modelled from the spec: default PHY address used when the configured
address is out of range.  The numeric value lives in `dp83826_driver.h`,
which is not among the sources; the spec only requires it to be a fixed
chip default in 0..31. -/
def DP83826_PHY_ADDR : Nat := 0

/-- Modelled from the spec: address of the basic mode control register
(BMCR); declared in the missing header `dp83826_driver.h`. -/
def DP83826_BMCR : Nat := 0x00

/-- Modelled from the spec: self-clearing reset bit of the BMCR; declared in
the missing header `dp83826_driver.h`. -/
def DP83826_BMCR_RESET : Nat := 0x8000

/-- Modelled from the spec: address of the basic mode status register
(BMSR); declared in the missing header `dp83826_driver.h`. -/
def DP83826_BMSR : Nat := 0x01

/-- Modelled from the spec: live link-status bit of the BMSR; declared in
the missing header `dp83826_driver.h`. -/
def DP83826_BMSR_LINK_STATUS : Nat := 0x0004

/-- Modelled from the spec: address of the PHY status register (PHYSTS);
declared in the missing header `dp83826_driver.h`. -/
def DP83826_PHYSTS : Nat := 0x10

/-- Modelled from the spec: link-status bit of PHYSTS; declared in the
missing header `dp83826_driver.h`. -/
def DP83826_PHYSTS_LINK_STATUS : Nat := 0x0001

/-- Modelled from the spec: speed-status bit of PHYSTS; declared in the
missing header `dp83826_driver.h`. -/
def DP83826_PHYSTS_SPEED_STATUS : Nat := 0x0002

/-- Modelled from the spec: duplex-status bit of PHYSTS; declared in the
missing header `dp83826_driver.h`. -/
def DP83826_PHYSTS_DUPLEX_STATUS : Nat := 0x0004

/-- Modelled from the spec: address of the PHY special control register;
declared in the missing header `dp83826_driver.h`. -/
def DP83826_PHYSCR : Nat := 0x11

/-- Modelled from the spec: interrupt-enable bit of PHYSCR; declared in the
missing header `dp83826_driver.h`. -/
def DP83826_PHYSCR_INT_EN : Nat := 0x0002

/-- Modelled from the spec: interrupt-output-enable bit of PHYSCR; declared
in the missing header `dp83826_driver.h`. -/
def DP83826_PHYSCR_INT_OE : Nat := 0x0001

/-- Modelled from the spec: address of the interrupt status register 1
(MISR1); declared in the missing header `dp83826_driver.h`. -/
def DP83826_MISR1 : Nat := 0x12

/-- Modelled from the spec: link-change interrupt-enable bit of MISR1;
declared in the missing header `dp83826_driver.h`. -/
def DP83826_MISR1_LINK_INT_EN : Nat := 0x0020

/-- Modelled from the spec: link-change interrupt flag of MISR1; declared in
the missing header `dp83826_driver.h`. -/
def DP83826_MISR1_LINK_INT : Nat := 0x2000

/-- Modelled from the spec: fixed SMI write opcode passed to the transport
collaborators; declared in the host stack headers, not among the sources. -/
def SMI_OPCODE_WRITE : Nat := 1

/-- Modelled from the spec: fixed SMI read opcode passed to the transport
collaborators; declared in the host stack headers, not among the sources. -/
def SMI_OPCODE_READ : Nat := 2

/-- Modelled from the spec: host-stack constant for a 10 Mbps link speed
(`nic.h` is not among the sources; only distinctness matters here). -/
def NIC_LINK_SPEED_10MBPS : Nat := 10000000

/-- Modelled from the spec: host-stack constant for a 100 Mbps link speed
(`nic.h` is not among the sources; only distinctness matters here). -/
def NIC_LINK_SPEED_100MBPS : Nat := 100000000

/-- Modelled from the spec: host-stack constant for half duplex operation
(`nic.h` is not among the sources; only distinctness matters here). -/
def NIC_HALF_DUPLEX_MODE : Nat := 1

/-- Modelled from the spec: host-stack constant for full duplex operation
(`nic.h` is not among the sources; only distinctness matters here). -/
def NIC_FULL_DUPLEX_MODE : Nat := 2

/-- Modelled from the spec: the success error code returned by the
initializer (`error.h` is not among the sources). -/
def NO_ERROR : Nat := 0

/-- State of the host's `NetInterface`, restricted to the fields the driver
reads or mutates.  The three collaborator references are modelled by
presence flags: `smiDriver` and `extIntDriver` are optional
(`NULL`-checked in the C code), the MAC driver `nicDriver` is always
present. -/
structure NetInterface where
  phyAddr : Nat
  linkState : Bool
  linkSpeed : Nat
  duplexMode : Nat
  phyEvent : Bool
  smiDriver : Bool
  extIntDriver : Bool
  deriving DecidableEq

/-- A single register access issued to one of the two transports, with the
arguments that were passed to the collaborator's entry point. -/
inductive PhyAccess where
  | smiWrite (opcode phyAddr regAddr data : Nat)
  | nicWrite (opcode phyAddr regAddr data : Nat)
  | smiRead (opcode phyAddr regAddr : Nat)
  | nicRead (opcode phyAddr regAddr : Nat)
  deriving DecidableEq

/-- Whether an access was delegated to the serial management interface
collaborator. -/
def PhyAccess.usesSmi : PhyAccess → Bool
  | .smiWrite _ _ _ _ => true
  | .smiRead _ _ _ => true
  | _ => false

/-- Whether an access was delegated to the MAC collaborator. -/
def PhyAccess.usesNic : PhyAccess → Bool
  | .nicWrite _ _ _ _ => true
  | .nicRead _ _ _ => true
  | _ => false

/-- Read responses of the two possible transports: functions from
(opcode, phyAddr, regAddr) to the 16-bit value the collaborator returns. -/
structure PhyTransport where
  smiReadResp : Nat → Nat → Nat → Nat
  nicReadResp : Nat → Nat → Nat → Nat

/-- `dp83826WritePhyReg`: route a register write to the SMI collaborator
when present, otherwise to the MAC collaborator, passing the fixed write
opcode, the interface's PHY address, the register address and the data.
The returned event records which collaborator was invoked and with which
arguments. -/
def dp83826WritePhyReg (intf : NetInterface) (address data : Nat) : PhyAccess :=
  if intf.smiDriver then
    PhyAccess.smiWrite SMI_OPCODE_WRITE intf.phyAddr address data
  else
    PhyAccess.nicWrite SMI_OPCODE_WRITE intf.phyAddr address data

/-- `dp83826ReadPhyReg`: route a register read to the SMI collaborator when
present, otherwise to the MAC collaborator, passing the fixed read opcode,
the interface's PHY address and the register address.  Returns the 16-bit
value obtained from that collaborator together with the access event. -/
def dp83826ReadPhyReg (env : PhyTransport) (intf : NetInterface)
    (address : Nat) : Nat × PhyAccess :=
  if intf.smiDriver then
    (env.smiReadResp SMI_OPCODE_READ intf.phyAddr address % 65536,
      PhyAccess.smiRead SMI_OPCODE_READ intf.phyAddr address)
  else
    (env.nicReadResp SMI_OPCODE_READ intf.phyAddr address % 65536,
      PhyAccess.nicRead SMI_OPCODE_READ intf.phyAddr address)

/-- Result of `dp83826Tick`: the interface after the call, and whether the
host event channel was signalled (`osSetEvent(&netEvent)`). -/
structure TickResult where
  intf : NetInterface
  eventSignaled : Bool
  deriving DecidableEq

/-- `dp83826Tick`: when no external interrupt line driver is configured,
read the basic status register, extract the link bit, and raise the
pending-event flag and the host event channel on a link-up or link-down
transition relative to the stored `linkState`.  `read` maps a register
address to the 16-bit value `dp83826ReadPhyReg` returns for it during this
call. -/
def dp83826Tick (read : Nat → Nat) (intf : NetInterface) : TickResult :=
  if intf.extIntDriver = false then
    let value := read DP83826_BMSR % 65536
    let linkState : Bool := value &&& DP83826_BMSR_LINK_STATUS != 0
    if linkState && !intf.linkState then
      ⟨{ intf with phyEvent := true }, true⟩
    else if !linkState && intf.linkState then
      ⟨{ intf with phyEvent := true }, true⟩
    else
      ⟨intf, false⟩
  else
    ⟨intf, false⟩

/-- Result of the IRQ gate operations: the interface (never mutated by the C
code) and whether the external interrupt line collaborator was invoked. -/
structure IrqResult where
  intf : NetInterface
  extIntCalled : Bool
  deriving DecidableEq

/-- `dp83826EnableIrq`: delegate to the external interrupt line driver's
`enableIrq` when that collaborator is present; otherwise do nothing. -/
def dp83826EnableIrq (intf : NetInterface) : IrqResult :=
  if intf.extIntDriver then ⟨intf, true⟩ else ⟨intf, false⟩

/-- `dp83826DisableIrq`: delegate to the external interrupt line driver's
`disableIrq` when that collaborator is present; otherwise do nothing. -/
def dp83826DisableIrq (intf : NetInterface) : IrqResult :=
  if intf.extIntDriver then ⟨intf, true⟩ else ⟨intf, false⟩

/-- Result of `dp83826EventHandler`: the interface after the call, the list
of interface states passed to `nicDriver->updateMacConfig` (in call
order), and whether `nicNotifyLinkChange` was called. -/
structure EventResult where
  intf : NetInterface
  macConfigCalls : List NetInterface
  linkChangeNotified : Bool
  deriving DecidableEq

/-- `dp83826EventHandler`: read MISR1 to acknowledge the interrupt; if the
link-change flag is set, read PHYSTS and decode link state, speed and
duplex; on link-up also reconfigure the MAC; finally notify the host of
the link change.  `read` maps a register address to the 16-bit value
`dp83826ReadPhyReg` returns for it during this call. -/
def dp83826EventHandler (read : Nat → Nat) (intf : NetInterface) :
    EventResult :=
  let status := read DP83826_MISR1 % 65536
  if status &&& DP83826_MISR1_LINK_INT != 0 then
    let status := read DP83826_PHYSTS % 65536
    if status &&& DP83826_PHYSTS_LINK_STATUS != 0 then
      let speed :=
        if status &&& DP83826_PHYSTS_SPEED_STATUS != 0 then
          NIC_LINK_SPEED_10MBPS
        else
          NIC_LINK_SPEED_100MBPS
      let duplex :=
        if status &&& DP83826_PHYSTS_DUPLEX_STATUS != 0 then
          NIC_FULL_DUPLEX_MODE
        else
          NIC_HALF_DUPLEX_MODE
      let intf2 :=
        { intf with linkSpeed := speed, duplexMode := duplex,
                    linkState := true }
      ⟨intf2, [intf2], true⟩
    else
      ⟨{ intf with linkState := false }, [], true⟩
  else
    ⟨intf, [], false⟩

/-- The reset-wait loop's exit condition at the n-th BMCR read: the reset
bit reads back clear.  `s n` is the 16-bit value returned by read number n
(counting from 0) of the basic mode control register after the reset
write. -/
def clearAt (s : Nat → Nat) (n : Nat) : Prop :=
  (s n % 65536) &&& DP83826_BMCR_RESET = 0

instance (s : Nat → Nat) (n : Nat) : Decidable (clearAt s n) := by
  unfold clearAt
  infer_instance

/-- The busy-wait loop `while(dp83826ReadPhyReg(interface, DP83826_BMCR) &
DP83826_BMCR_RESET) {}` of the initializer, with explicit fuel.
`resetWait s fuel n = some m` means the loop, entered with n reads already
performed and allowed at most `fuel` further reads, exits after m reads in
total; `none` means the loop did not exit within the given fuel. -/
def resetWait (s : Nat → Nat) : Nat → Nat → Option Nat
  | 0, _ => none
  | fuel + 1, n =>
    if (s n % 65536) &&& DP83826_BMCR_RESET != 0 then
      resetWait s fuel (n + 1)
    else
      some (n + 1)

/-- Result of `dp83826Init`: the interface after the call, the returned
error code, whether the host event channel was signalled, the number of
BMCR reads the reset-wait loop performed, and the register writes issued
(address, value), in order. -/
structure InitResult where
  intf : NetInterface
  error : Nat
  eventSignaled : Bool
  resetReads : Nat
  writes : List (Nat × Nat)
  deriving DecidableEq

/-- `dp83826Init`: substitute the default PHY address when the configured
one is out of range, initialize the optional collaborators, write the
reset bit, busy-wait until it reads back clear, configure the interrupt
pin and the link-change interrupt enable, set the pending-event flag,
signal the host event channel and return success.  `s` is the stream of
values returned by the successive BMCR reads of the busy-wait; the result
is `none` when that loop does not exit within `fuel` reads. -/
def dp83826Init (s : Nat → Nat) (fuel : Nat) (intf : NetInterface) :
    Option InitResult :=
  let intf :=
    if intf.phyAddr ≥ 32 then { intf with phyAddr := DP83826_PHY_ADDR }
    else intf
  match resetWait s fuel 0 with
  | none => none
  | some m =>
    some ⟨{ intf with phyEvent := true }, NO_ERROR, true, m,
      [(DP83826_BMCR, DP83826_BMCR_RESET),
       (DP83826_PHYSCR, DP83826_PHYSCR_INT_EN ||| DP83826_PHYSCR_INT_OE),
       (DP83826_MISR1, DP83826_MISR1_LINK_INT_EN)]⟩

/-- Each successful run of the busy-wait exits at a clear read, and every
read strictly before the exit read saw the reset bit still set. -/
theorem resetWait_sound (s : Nat → Nat) :
    ∀ fuel n m, resetWait s fuel n = some m →
      n < m ∧ clearAt s (m - 1) ∧ ∀ i, n ≤ i → i < m - 1 → ¬ clearAt s i := by
  intro fuel
  induction fuel with
  | zero =>
    intro n m h
    simp [resetWait] at h
  | succ fuel ih =>
    intro n m h
    simp only [resetWait] at h
    split at h
    · rename_i hset
      have hset' : (s n % 65536) &&& DP83826_BMCR_RESET ≠ 0 := by
        simpa using hset
      obtain ⟨h1, h2, h3⟩ := ih (n + 1) m h
      refine ⟨by omega, h2, ?_⟩
      intro i hni him
      rcases Nat.eq_or_lt_of_le hni with rfl | hlt
      · simpa [clearAt] using hset'
      · exact h3 i hlt him
    · rename_i hclear
      have hm : n + 1 = m := by
        simpa using h
      subst hm
      refine ⟨by omega, ?_, ?_⟩
      · have : (s n % 65536) &&& DP83826_BMCR_RESET = 0 := by
          simpa using hclear
        simpa [clearAt] using this
      · intro i hni him
        omega

/-- If the reads before index `n + d` all saw the reset bit set and read
`n + d` sees it clear, the busy-wait entered at read index n exits after
read `n + d`, given fuel `d + 1`. -/
theorem resetWait_complete (s : Nat → Nat) :
    ∀ d n, (∀ i, n ≤ i → i < n + d → ¬ clearAt s i) → clearAt s (n + d) →
      resetWait s (d + 1) n = some (n + d + 1) := by
  intro d
  induction d with
  | zero =>
    intro n _ hc
    simp only [Nat.add_zero] at hc
    simp only [resetWait]
    rw [if_neg (by simpa [clearAt] using hc)]
  | succ d ih =>
    intro n hbefore hc
    have hn : ¬ clearAt s n := hbefore n (Nat.le_refl n) (by omega)
    have hn' : (s n % 65536) &&& DP83826_BMCR_RESET ≠ 0 := by
      simpa [clearAt] using hn
    rw [resetWait]
    rw [if_pos (by simpa using hn')]
    have hstep :=
      ih (n + 1) (fun i hi1 hi2 => hbefore i (by omega) (by omega))
        (by
          have hEq : n + 1 + d = n + (d + 1) := by omega
          rw [hEq]
          exact hc)
    rw [hstep]
    congr 1
    omega

/-- C3: the initializer's reset-wait loop exits, for some amount of fuel,
exactly when some BMCR read in the stream has the reset bit clear (so with
the bit never clear no fuel suffices: no timeout bounds the loop); when it
exits it has performed exactly the reads up to and including the first clear
read; and for the read pattern [set, set, clear] it performs exactly three
reads and then proceeds. -/
theorem dp83826Init_resetWait_spec (s : Nat → Nat) :
    ((∃ fuel m, resetWait s fuel 0 = some m) ↔ ∃ n, clearAt s n) ∧
    (∀ fuel m, resetWait s fuel 0 = some m →
      0 < m ∧ clearAt s (m - 1) ∧ ∀ i < m - 1, ¬ clearAt s i) ∧
    (¬ clearAt s 0 → ¬ clearAt s 1 → clearAt s 2 →
      resetWait s 3 0 = some 3 ∧
      ∀ fuel m, resetWait s fuel 0 = some m → m = 3) := by
  refine ⟨⟨?_, ?_⟩, ?_, ?_⟩
  · rintro ⟨fuel, m, h⟩
    obtain ⟨-, h2, -⟩ := resetWait_sound s fuel 0 m h
    exact ⟨m - 1, h2⟩
  · rintro hex
    classical
    have hk : clearAt s (Nat.find hex) := Nat.find_spec hex
    have hbefore : ∀ i, 0 ≤ i → i < 0 + Nat.find hex → ¬ clearAt s i := by
      intro i _ hi
      exact Nat.find_min hex (by omega)
    refine ⟨Nat.find hex + 1, 0 + Nat.find hex + 1, ?_⟩
    exact resetWait_complete s (Nat.find hex) 0 hbefore (by simpa using hk)
  · intro fuel m h
    obtain ⟨h1, h2, h3⟩ := resetWait_sound s fuel 0 m h
    exact ⟨h1, h2, fun i hi => h3 i (Nat.zero_le i) hi⟩
  · intro h0 h1 h2
    have hrun : resetWait s 3 0 = some 3 := by
      have := resetWait_complete s 2 0
        (by
          intro i hi1 hi2
          interval_cases i
          · exact h0
          · exact h1)
        (by simpa using h2)
      simpa using this
    refine ⟨hrun, ?_⟩
    intro fuel m h
    obtain ⟨hm1, hm2, hm3⟩ := resetWait_sound s fuel 0 m h
    by_contra hne
    rcases Nat.lt_trichotomy (m - 1) 2 with hlt | heq | hgt
    · interval_cases hmm : (m - 1)
      · exact h0 (by simpa [hmm] using hm2)
      · exact h1 (by simpa [hmm] using hm2)
    · omega
    · exact (hm3 2 (Nat.zero_le 2) hgt) h2

/-- C3 witness: the [set, set, clear] pattern makes the loop exit after
exactly three reads. -/
theorem dp83826Init_resetWait_spec_witness :
    resetWait (fun n => if n < 2 then 0x8000 else 0) 3 0 = some 3 :=
  ((dp83826Init_resetWait_spec (fun n => if n < 2 then 0x8000 else 0)).2.2
    (by decide) (by decide) (by decide)).1

/-- C7: every terminating execution of the initializer returns the success
code `NO_ERROR`; no reachable path returns a failure code. -/
theorem dp83826Init_no_failure (s : Nat → Nat) (fuel : Nat)
    (intf : NetInterface) (r : InitResult)
    (h : dp83826Init s fuel intf = some r) : r.error = NO_ERROR := by
  unfold dp83826Init at h
  rcases hrw : resetWait s fuel 0 with - | m
  · rw [hrw] at h
    simp at h
  · rw [hrw] at h
    simp only [Option.some.injEq] at h
    rw [← h]

/-- C7 witness: a concrete run of the initializer (reset bit clear on the
first read) returns `NO_ERROR`. -/
theorem dp83826Init_no_failure_witness :
    (InitResult.error
      ⟨⟨5, false, 0, 0, true, false, false⟩, NO_ERROR, true, 1,
        [(DP83826_BMCR, DP83826_BMCR_RESET),
         (DP83826_PHYSCR, DP83826_PHYSCR_INT_EN ||| DP83826_PHYSCR_INT_OE),
         (DP83826_MISR1, DP83826_MISR1_LINK_INT_EN)]⟩) = NO_ERROR :=
  dp83826Init_no_failure (fun _ => 0) 1 ⟨5, false, 0, 0, false, false, false⟩
    _ (by decide)

/-- C2: with no external interrupt line collaborator, a single tick signals
the host event channel and sets the pending-event flag exactly when the
polled link bit differs from the stored `linkState`; it mutates no other
interface field; a tick whose polled link bit shows no change relative to
the stored state leaves the interface unchanged and raises nothing, and so
does every repetition of it; with an external interrupt line collaborator
configured, the tick has no effect at all. -/
theorem dp83826Tick_spec (read : Nat → Nat) (intf : NetInterface) :
    (intf.extIntDriver = false →
      (((dp83826Tick read intf).eventSignaled = true) ↔
        (((read DP83826_BMSR % 65536) &&& DP83826_BMSR_LINK_STATUS != 0) ≠
          intf.linkState)) ∧
      ((dp83826Tick read intf).eventSignaled = true →
        (dp83826Tick read intf).intf = { intf with phyEvent := true }) ∧
      ((dp83826Tick read intf).eventSignaled = false →
        (dp83826Tick read intf).intf = intf) ∧
      ((((read DP83826_BMSR % 65536) &&& DP83826_BMSR_LINK_STATUS != 0) =
          intf.linkState) →
        dp83826Tick read intf = ⟨intf, false⟩ ∧
        dp83826Tick read ((dp83826Tick read intf).intf) = ⟨intf, false⟩)) ∧
    ((dp83826Tick read intf).intf.linkState = intf.linkState ∧
      (dp83826Tick read intf).intf.linkSpeed = intf.linkSpeed ∧
      (dp83826Tick read intf).intf.duplexMode = intf.duplexMode ∧
      (dp83826Tick read intf).intf.phyAddr = intf.phyAddr ∧
      (dp83826Tick read intf).intf.smiDriver = intf.smiDriver ∧
      (dp83826Tick read intf).intf.extIntDriver = intf.extIntDriver) ∧
    (intf.extIntDriver = true → dp83826Tick read intf = ⟨intf, false⟩) := by
  cases hE : intf.extIntDriver
  · cases hB : ((read DP83826_BMSR % 65536) &&& DP83826_BMSR_LINK_STATUS != 0)
      <;> cases hL : intf.linkState
      <;> simp_all [dp83826Tick]
  · simp_all [dp83826Tick]

/-- C2 witness: a tick on an interface with no external interrupt line,
stored link state down, and the polled link bit up, sets only the
pending-event flag. -/
theorem dp83826Tick_spec_witness :
    (dp83826Tick (fun _ => 4) ⟨0, false, 0, 0, false, false, false⟩).intf =
      { (⟨0, false, 0, 0, false, false, false⟩ : NetInterface) with
          phyEvent := true } :=
  ((dp83826Tick_spec (fun _ => 4)
    ⟨0, false, 0, 0, false, false, false⟩).1 rfl).2.1 (by decide)

/-- C1 counterexample: a PHY status read with the link bit and the duplex
status bit both set makes the event handler store full duplex, not half
duplex as the claim states. -/
theorem dp83826EventHandler_duplex_claim_refuted :
    (((fun a => if a = DP83826_MISR1 then 0x2000 else
        if a = DP83826_PHYSTS then 5 else 0) DP83826_MISR1 % 65536) &&&
      DP83826_MISR1_LINK_INT ≠ 0) ∧
    (((fun a => if a = DP83826_MISR1 then 0x2000 else
        if a = DP83826_PHYSTS then 5 else 0) DP83826_PHYSTS % 65536) &&&
      DP83826_PHYSTS_LINK_STATUS ≠ 0) ∧
    (((fun a => if a = DP83826_MISR1 then 0x2000 else
        if a = DP83826_PHYSTS then 5 else 0) DP83826_PHYSTS % 65536) &&&
      DP83826_PHYSTS_DUPLEX_STATUS ≠ 0) ∧
    (dp83826EventHandler
      (fun a => if a = DP83826_MISR1 then 0x2000 else
        if a = DP83826_PHYSTS then 5 else 0)
      ⟨0, false, 0, 0, false, false, false⟩).intf.duplexMode =
        NIC_FULL_DUPLEX_MODE ∧
    (dp83826EventHandler
      (fun a => if a = DP83826_MISR1 then 0x2000 else
        if a = DP83826_PHYSTS then 5 else 0)
      ⟨0, false, 0, 0, false, false, false⟩).intf.duplexMode ≠
        NIC_HALF_DUPLEX_MODE := by
  decide

/-- C1 (amended): in the event handler, when the link-change bit is set and
the PHY status register indicates link-up, the duplex field is decoded as
full duplex if the duplex status bit is set and half duplex if it is clear,
for every possible PHY status register value with the link bit set. -/
theorem dp83826EventHandler_duplex_decode (read : Nat → Nat)
    (intf : NetInterface)
    (hInt : (read DP83826_MISR1 % 65536) &&& DP83826_MISR1_LINK_INT ≠ 0)
    (hUp : (read DP83826_PHYSTS % 65536) &&& DP83826_PHYSTS_LINK_STATUS ≠ 0) :
    (dp83826EventHandler read intf).intf.duplexMode =
      if (read DP83826_PHYSTS % 65536) &&& DP83826_PHYSTS_DUPLEX_STATUS ≠ 0
      then NIC_FULL_DUPLEX_MODE else NIC_HALF_DUPLEX_MODE := by
  by_cases hD : (read DP83826_PHYSTS % 65536) &&& DP83826_PHYSTS_DUPLEX_STATUS = 0
    <;> simp [dp83826EventHandler, hInt, hUp, hD]

/-- C1 witness: a PHY status read with link up and the duplex bit clear is
decoded as half duplex. -/
theorem dp83826EventHandler_duplex_decode_witness :
    (dp83826EventHandler
      (fun a => if a = DP83826_MISR1 then 0x2000 else
        if a = DP83826_PHYSTS then 1 else 0)
      ⟨0, false, 0, 0, false, false, false⟩).intf.duplexMode =
      if (((fun a => if a = DP83826_MISR1 then 0x2000 else
            if a = DP83826_PHYSTS then 1 else 0) DP83826_PHYSTS % 65536) &&&
          DP83826_PHYSTS_DUPLEX_STATUS ≠ 0)
      then NIC_FULL_DUPLEX_MODE else NIC_HALF_DUPLEX_MODE :=
  dp83826EventHandler_duplex_decode _ _ (by decide) (by decide)

/-- C4: when the link-change bit is set and the PHY status register
indicates link-up, the event handler stores 10 Mbps if the speed status bit
is set and 100 Mbps otherwise, sets `linkState` to true; and the MAC
collaborator's `updateMacConfig` is invoked exactly when the link-change
bit is set and the decoded link state is up. -/
theorem dp83826EventHandler_linkUp_spec (read : Nat → Nat)
    (intf : NetInterface) :
    ((read DP83826_MISR1 % 65536) &&& DP83826_MISR1_LINK_INT ≠ 0 →
      (read DP83826_PHYSTS % 65536) &&& DP83826_PHYSTS_LINK_STATUS ≠ 0 →
      (dp83826EventHandler read intf).intf.linkSpeed =
        (if (read DP83826_PHYSTS % 65536) &&& DP83826_PHYSTS_SPEED_STATUS ≠ 0
         then NIC_LINK_SPEED_10MBPS else NIC_LINK_SPEED_100MBPS) ∧
      (dp83826EventHandler read intf).intf.linkState = true) ∧
    ((dp83826EventHandler read intf).macConfigCalls ≠ [] ↔
      ((read DP83826_MISR1 % 65536) &&& DP83826_MISR1_LINK_INT ≠ 0 ∧
        (read DP83826_PHYSTS % 65536) &&& DP83826_PHYSTS_LINK_STATUS ≠ 0)) := by
  constructor
  · intro hInt hUp
    by_cases hS : (read DP83826_PHYSTS % 65536) &&& DP83826_PHYSTS_SPEED_STATUS = 0
      <;> simp [dp83826EventHandler, hInt, hUp, hS]
  · by_cases hInt : (read DP83826_MISR1 % 65536) &&& DP83826_MISR1_LINK_INT = 0
    · simp [dp83826EventHandler, hInt]
    · by_cases hUp
        : (read DP83826_PHYSTS % 65536) &&& DP83826_PHYSTS_LINK_STATUS = 0
        <;> simp [dp83826EventHandler, hInt, hUp]

/-- C4 witness: a link-up event at 100 Mbps sets the decoded speed, sets the
link state, and invokes the MAC reconfiguration. -/
theorem dp83826EventHandler_linkUp_spec_witness :
    (dp83826EventHandler
      (fun a => if a = DP83826_MISR1 then 0x2000 else
        if a = DP83826_PHYSTS then 1 else 0)
      ⟨0, false, 0, 0, false, false, false⟩).intf.linkSpeed =
      (if (((fun a => if a = DP83826_MISR1 then 0x2000 else
            if a = DP83826_PHYSTS then 1 else 0) DP83826_PHYSTS % 65536) &&&
          DP83826_PHYSTS_SPEED_STATUS ≠ 0)
       then NIC_LINK_SPEED_10MBPS else NIC_LINK_SPEED_100MBPS) ∧
    (dp83826EventHandler
      (fun a => if a = DP83826_MISR1 then 0x2000 else
        if a = DP83826_PHYSTS then 1 else 0)
      ⟨0, false, 0, 0, false, false, false⟩).intf.linkState = true :=
  (dp83826EventHandler_linkUp_spec _ _).1 (by decide) (by decide)

/-- C5: the event handler calls `nicNotifyLinkChange` exactly when the
link-change bit is set in the interrupt-status read; when that bit is
clear, the call mutates nothing, invokes nothing and notifies nobody. -/
theorem dp83826EventHandler_notify_iff (read : Nat → Nat)
    (intf : NetInterface) :
    ((dp83826EventHandler read intf).linkChangeNotified = true ↔
      (read DP83826_MISR1 % 65536) &&& DP83826_MISR1_LINK_INT ≠ 0) ∧
    ((read DP83826_MISR1 % 65536) &&& DP83826_MISR1_LINK_INT = 0 →
      dp83826EventHandler read intf =
        ⟨intf, [], false⟩) := by
  by_cases hInt : (read DP83826_MISR1 % 65536) &&& DP83826_MISR1_LINK_INT = 0
  · simp [dp83826EventHandler, hInt]
  · constructor
    · by_cases hUp
        : (read DP83826_PHYSTS % 65536) &&& DP83826_PHYSTS_LINK_STATUS = 0
        <;> simp [dp83826EventHandler, hInt, hUp]
    · exact fun h => absurd h hInt

/-- C5 witness: an interrupt-status read with the link-change bit clear
leaves the interface untouched and performs no notification. -/
theorem dp83826EventHandler_notify_iff_witness :
    dp83826EventHandler (fun _ => 0)
      ⟨0, true, 0, 0, false, false, false⟩ =
      ⟨⟨0, true, 0, 0, false, false, false⟩, [], false⟩ :=
  (dp83826EventHandler_notify_iff (fun _ => 0)
    ⟨0, true, 0, 0, false, false, false⟩).2 (by decide)

/-- C8: when the link-change bit is set but the PHY status register
indicates link-down, the event handler sets `linkState` to false and leaves
`linkSpeed` and `duplexMode` exactly as they were before the call. -/
theorem dp83826EventHandler_linkDown_frame (read : Nat → Nat)
    (intf : NetInterface)
    (hInt : (read DP83826_MISR1 % 65536) &&& DP83826_MISR1_LINK_INT ≠ 0)
    (hDown : (read DP83826_PHYSTS % 65536) &&& DP83826_PHYSTS_LINK_STATUS = 0) :
    (dp83826EventHandler read intf).intf.linkState = false ∧
    (dp83826EventHandler read intf).intf.linkSpeed = intf.linkSpeed ∧
    (dp83826EventHandler read intf).intf.duplexMode = intf.duplexMode := by
  simp [dp83826EventHandler, hInt, hDown]

/-- C8 witness: a link-down event on an interface holding 100 Mbps full
duplex clears the link state and keeps the stale speed and duplex values. -/
theorem dp83826EventHandler_linkDown_frame_witness :
    (dp83826EventHandler (fun a => if a = DP83826_MISR1 then 0x2000 else 0)
      ⟨0, true, NIC_LINK_SPEED_100MBPS, NIC_FULL_DUPLEX_MODE, false, false,
        false⟩).intf.linkState = false ∧
    (dp83826EventHandler (fun a => if a = DP83826_MISR1 then 0x2000 else 0)
      ⟨0, true, NIC_LINK_SPEED_100MBPS, NIC_FULL_DUPLEX_MODE, false, false,
        false⟩).intf.linkSpeed = NIC_LINK_SPEED_100MBPS ∧
    (dp83826EventHandler (fun a => if a = DP83826_MISR1 then 0x2000 else 0)
      ⟨0, true, NIC_LINK_SPEED_100MBPS, NIC_FULL_DUPLEX_MODE, false, false,
        false⟩).intf.duplexMode = NIC_FULL_DUPLEX_MODE :=
  dp83826EventHandler_linkDown_frame _ _ (by decide) (by decide)

/-- C9: in the link-up branch, `updateMacConfig` is invoked exactly once,
and the interface state it observes is the final one, in which `linkSpeed`,
`duplexMode` and `linkState` already hold the newly decoded values. -/
theorem dp83826EventHandler_macConfig_sees_new_state (read : Nat → Nat)
    (intf : NetInterface)
    (hInt : (read DP83826_MISR1 % 65536) &&& DP83826_MISR1_LINK_INT ≠ 0)
    (hUp : (read DP83826_PHYSTS % 65536) &&& DP83826_PHYSTS_LINK_STATUS ≠ 0) :
    (dp83826EventHandler read intf).macConfigCalls =
      [(dp83826EventHandler read intf).intf] ∧
    ∀ j ∈ (dp83826EventHandler read intf).macConfigCalls,
      j.linkSpeed =
        (if (read DP83826_PHYSTS % 65536) &&& DP83826_PHYSTS_SPEED_STATUS ≠ 0
         then NIC_LINK_SPEED_10MBPS else NIC_LINK_SPEED_100MBPS) ∧
      j.duplexMode =
        (if (read DP83826_PHYSTS % 65536) &&& DP83826_PHYSTS_DUPLEX_STATUS ≠ 0
         then NIC_FULL_DUPLEX_MODE else NIC_HALF_DUPLEX_MODE) ∧
      j.linkState = true := by
  constructor
  · simp [dp83826EventHandler, hInt, hUp]
  · intro j hj
    by_cases hS : (read DP83826_PHYSTS % 65536) &&& DP83826_PHYSTS_SPEED_STATUS = 0
      <;> by_cases hD
        : (read DP83826_PHYSTS % 65536) &&& DP83826_PHYSTS_DUPLEX_STATUS = 0
      <;> simp [dp83826EventHandler, hInt, hUp, hS, hD] at hj
      <;> simp [hj, hS, hD]

/-- C9 witness: on a 10 Mbps full-duplex link-up event, the single
`updateMacConfig` call observes the freshly decoded speed, duplex and link
state. -/
theorem dp83826EventHandler_macConfig_sees_new_state_witness :
    (dp83826EventHandler
      (fun a => if a = DP83826_MISR1 then 0x2000 else
        if a = DP83826_PHYSTS then 7 else 0)
      ⟨0, false, 0, 0, false, false, false⟩).macConfigCalls =
      [(dp83826EventHandler
        (fun a => if a = DP83826_MISR1 then 0x2000 else
          if a = DP83826_PHYSTS then 7 else 0)
        ⟨0, false, 0, 0, false, false, false⟩).intf] :=
  (dp83826EventHandler_macConfig_sees_new_state _ _ (by decide) (by decide)).1

/-- C6: every register access is delegated to the SMI collaborator when it
is present — with the fixed opcode, the interface's PHY address and the
target register address — and never to the MAC collaborator; when the SMI
collaborator is absent, the access goes to the MAC collaborator's entry
points with the same arguments, and the value a read returns comes from the
selected collaborator. -/
theorem dp83826PhyReg_routing (env : PhyTransport) (intf : NetInterface)
    (address data : Nat) :
    (intf.smiDriver = true →
      dp83826WritePhyReg intf address data =
        PhyAccess.smiWrite SMI_OPCODE_WRITE intf.phyAddr address data ∧
      (dp83826WritePhyReg intf address data).usesNic = false ∧
      (dp83826ReadPhyReg env intf address).2 =
        PhyAccess.smiRead SMI_OPCODE_READ intf.phyAddr address ∧
      ((dp83826ReadPhyReg env intf address).2).usesNic = false ∧
      (dp83826ReadPhyReg env intf address).1 =
        env.smiReadResp SMI_OPCODE_READ intf.phyAddr address % 65536) ∧
    (intf.smiDriver = false →
      dp83826WritePhyReg intf address data =
        PhyAccess.nicWrite SMI_OPCODE_WRITE intf.phyAddr address data ∧
      (dp83826WritePhyReg intf address data).usesSmi = false ∧
      (dp83826ReadPhyReg env intf address).2 =
        PhyAccess.nicRead SMI_OPCODE_READ intf.phyAddr address ∧
      ((dp83826ReadPhyReg env intf address).2).usesSmi = false ∧
      (dp83826ReadPhyReg env intf address).1 =
        env.nicReadResp SMI_OPCODE_READ intf.phyAddr address % 65536) := by
  cases hS : intf.smiDriver
    <;> simp [dp83826WritePhyReg, dp83826ReadPhyReg, hS,
      PhyAccess.usesSmi, PhyAccess.usesNic]

/-- C6 witness: with an SMI collaborator present, a write goes to the SMI
entry point with the fixed write opcode, the PHY address and the register
address. -/
theorem dp83826PhyReg_routing_witness :
    dp83826WritePhyReg ⟨3, false, 0, 0, false, true, false⟩ 0 0x8000 =
      PhyAccess.smiWrite SMI_OPCODE_WRITE 3 0 0x8000 :=
  ((dp83826PhyReg_routing ⟨fun _ _ _ => 7, fun _ _ _ => 9⟩
    ⟨3, false, 0, 0, false, true, false⟩ 0 0x8000).1 rfl).1

/-- C10: no driver operation ever clears the pending-event flag: the
initializer and the tick only ever assign it true, the event handler and
the IRQ gate operations never modify it; hence `phyEvent = true` is
preserved by all five operations. -/
theorem dp83826_phyEvent_never_cleared (s read : Nat → Nat) (fuel : Nat)
    (intf : NetInterface) :
    (∀ r, dp83826Init s fuel intf = some r → r.intf.phyEvent = true) ∧
    ((dp83826Tick read intf).intf.phyEvent = intf.phyEvent ∨
      (dp83826Tick read intf).intf.phyEvent = true) ∧
    (dp83826EventHandler read intf).intf.phyEvent = intf.phyEvent ∧
    (dp83826EnableIrq intf).intf.phyEvent = intf.phyEvent ∧
    (dp83826DisableIrq intf).intf.phyEvent = intf.phyEvent ∧
    (intf.phyEvent = true →
      (dp83826Tick read intf).intf.phyEvent = true ∧
      (dp83826EventHandler read intf).intf.phyEvent = true ∧
      (dp83826EnableIrq intf).intf.phyEvent = true ∧
      (dp83826DisableIrq intf).intf.phyEvent = true ∧
      ∀ r, dp83826Init s fuel intf = some r → r.intf.phyEvent = true) := by
  have hInit : ∀ r, dp83826Init s fuel intf = some r →
      r.intf.phyEvent = true := by
    intro r h
    unfold dp83826Init at h
    rcases hrw : resetWait s fuel 0 with - | m
    · rw [hrw] at h
      simp at h
    · rw [hrw] at h
      simp only [Option.some.injEq] at h
      rw [← h]
  have hTick : (dp83826Tick read intf).intf.phyEvent = intf.phyEvent ∨
      (dp83826Tick read intf).intf.phyEvent = true := by
    cases hE : intf.extIntDriver
    · cases hB : ((read DP83826_BMSR % 65536) &&& DP83826_BMSR_LINK_STATUS != 0)
        <;> cases hL : intf.linkState
        <;> simp [dp83826Tick, hE, hB, hL]
    · simp [dp83826Tick, hE]
  have hEvt : (dp83826EventHandler read intf).intf.phyEvent =
      intf.phyEvent := by
    by_cases hInt : (read DP83826_MISR1 % 65536) &&& DP83826_MISR1_LINK_INT = 0
    · simp [dp83826EventHandler, hInt]
    · by_cases hUp
        : (read DP83826_PHYSTS % 65536) &&& DP83826_PHYSTS_LINK_STATUS = 0
        <;> simp [dp83826EventHandler, hInt, hUp]
  have hEn : (dp83826EnableIrq intf).intf.phyEvent = intf.phyEvent := by
    unfold dp83826EnableIrq
    split <;> rfl
  have hDis : (dp83826DisableIrq intf).intf.phyEvent = intf.phyEvent := by
    unfold dp83826DisableIrq
    split <;> rfl
  refine ⟨hInit, hTick, hEvt, hEn, hDis, fun hp => ⟨?_, ?_, ?_, ?_, hInit⟩⟩
  · rcases hTick with h | h
    · rw [h, hp]
    · exact h
  · rw [hEvt, hp]
  · rw [hEn, hp]
  · rw [hDis, hp]

/-- C10 witness: on an interface whose pending-event flag is already set,
the event handler leaves the flag set. -/
theorem dp83826_phyEvent_never_cleared_witness :
    (dp83826EventHandler (fun _ => 0)
      ⟨0, false, 0, 0, true, false, false⟩).intf.phyEvent = true :=
  ((dp83826_phyEvent_never_cleared (fun _ => 0) (fun _ => 0) 1
    ⟨0, false, 0, 0, true, false, false⟩).2.2.2.2.2 rfl).2.1
